import Mathlib

/-!
Verification of the whatamilisteningto-api backend against its
natural-language specification.  The Go services are shallowly embedded:
pure computations become Lean functions, the Redis and PostgreSQL stores
become explicit state values threaded through the operations, and the
external collaborators (Spotify OAuth/token endpoint, the playback poll,
database query outcomes) are passed in as oracle arguments, since the
code treats them as black boxes that either return a value or an error.
Time is modelled as integer seconds.
-/

namespace WAILT

/-- models.SpotifyCurrentlyPlaying: the playback snapshot extracted from
the upstream provider, with its nine JSON-tagged fields. -/
structure SpotifyCurrentlyPlaying where
  is_playing : Bool
  track_id : String
  track_name : String
  artist_name : String
  album_name : String
  album_art_url : String
  track_url : String
  duration_ms : Int
  progress_ms : Int
deriving Repr, DecidableEq

/-- A JSON value, the codomain of json.Marshal as used by the services:
the snapshot marshals to an object of booleans, strings and numbers. -/
inductive Json where
  | bool (b : Bool)
  | str (s : String)
  | num (n : Int)
  | obj (fields : List (String × Json))

/-- Field lookup in a marshalled JSON object (first binding wins). -/
def lookupField (fields : List (String × Json)) (k : String) : Option Json :=
  match fields with
  | [] => none
  | (k', v) :: rest => if k' == k then some v else lookupField rest k

/-- Decoding a boolean field the way encoding/json does when filling a
struct: an absent field leaves the zero value, a present field of the
wrong JSON type is an unmarshal error. -/
def asBool (v : Option Json) : Option Bool :=
  match v with
  | none => some false
  | some (.bool b) => some b
  | some _ => none

/-- Decoding a string field (absent ↦ zero value ""). -/
def asStr (v : Option Json) : Option String :=
  match v with
  | none => some ""
  | some (.str s) => some s
  | some _ => none

/-- Decoding an integer field (absent ↦ zero value 0). -/
def asNum (v : Option Json) : Option Int :=
  match v with
  | none => some 0
  | some (.num n) => some n
  | some _ => none

/-- json.Marshal of models.SpotifyCurrentlyPlaying, following the json
struct tags of the model. -/
def marshalCurrentlyPlaying (t : SpotifyCurrentlyPlaying) : Json :=
  .obj [("is_playing", .bool t.is_playing),
        ("track_id", .str t.track_id),
        ("track_name", .str t.track_name),
        ("artist_name", .str t.artist_name),
        ("album_name", .str t.album_name),
        ("album_art_url", .str t.album_art_url),
        ("track_url", .str t.track_url),
        ("duration_ms", .num t.duration_ms),
        ("progress_ms", .num t.progress_ms)]

/-- json.Unmarshal into models.SpotifyCurrentlyPlaying. -/
def unmarshalCurrentlyPlaying (j : Json) : Option SpotifyCurrentlyPlaying :=
  match j with
  | .obj fields => do
      let ip ← asBool (lookupField fields "is_playing")
      let tid ← asStr (lookupField fields "track_id")
      let tname ← asStr (lookupField fields "track_name")
      let aname ← asStr (lookupField fields "artist_name")
      let alname ← asStr (lookupField fields "album_name")
      let art ← asStr (lookupField fields "album_art_url")
      let turl ← asStr (lookupField fields "track_url")
      let dur ← asNum (lookupField fields "duration_ms")
      let prog ← asNum (lookupField fields "progress_ms")
      pure ⟨ip, tid, tname, aname, alname, art, turl, dur, prog⟩
  | _ => none

/-! ## Redis model

database.RedisClient wraps go-redis.  The string keyspace maps a key to
a value together with an absolute expiry instant (SET with TTL); GET
returns nothing once the expiry has been reached.  Redis sets (SADD /
SREM / SCARD) have no per-member expiry. -/

/-- The string keyspace with expiring keys, plus the set keyspace. -/
structure RedisState where
  kv : List (String × Json × Int)
  sets : List (String × List String)

/-- SET key value EX ttl: overwrite the binding for the key. -/
def kvSet (l : List (String × Json × Int)) (k : String) (v : Json) (e : Int) :
    List (String × Json × Int) :=
  match l with
  | [] => [(k, v, e)]
  | (k', v', e') :: rest =>
      if k' == k then (k, v, e) :: rest else (k', v', e') :: kvSet rest k v e

/-- GET key at the current instant: an expired key is absent. -/
def kvGet (l : List (String × Json × Int)) (k : String) (now : Int) : Option Json :=
  match l with
  | [] => none
  | (k', v', e') :: rest =>
      if k' == k then (if now < e' then some v' else none) else kvGet rest k now

/-- RedisClient.Set with an expiration duration. -/
def redisSet (st : RedisState) (k : String) (v : Json) (ttl : Int) (now : Int) : RedisState :=
  { st with kv := kvSet st.kv k v (now + ttl) }

/-- RedisClient.Get (redis.Nil on a missing or expired key becomes none). -/
def redisGet (st : RedisState) (k : String) (now : Int) : Option Json :=
  kvGet st.kv k now

/-- SADD on the set stored at a key. -/
def setsAdd (l : List (String × List String)) (k m : String) :
    List (String × List String) :=
  match l with
  | [] => [(k, [m])]
  | (k', ms) :: rest =>
      if k' == k then (k', if ms.contains m then ms else ms ++ [m]) :: rest
      else (k', ms) :: setsAdd rest k m

/-- RedisClient.AddToSet. -/
def sAdd (st : RedisState) (k m : String) : RedisState :=
  { st with sets := setsAdd st.sets k m }

/-- RedisClient.GetSetSize (SCARD: 0 for a missing key). -/
def sCard (st : RedisState) (k : String) : Nat :=
  match st.sets.find? (fun p => p.1 == k) with
  | none => 0
  | some p => p.2.length

/-- The empty Redis instance. -/
def emptyRedis : RedisState := ⟨[], []⟩

/-! ## SpotifyService cache (part_008) -/

/-- The 2-minute now-playing cache TTL, in seconds. -/
def Tcache : Int := 120

/-- The 5-minute presence TTL, in seconds. -/
def Tpresence : Int := 300

/-- Cache key "track:current:userID". -/
def cacheKey (userID : String) : String := "track:current:" ++ userID

/-- SpotifyService.CacheCurrentlyPlaying: marshal the snapshot and SET it
under the user's cache key with a 2-minute expiration. -/
def CacheCurrentlyPlaying (st : RedisState) (userID : String)
    (track : SpotifyCurrentlyPlaying) (now : Int) : RedisState :=
  redisSet st (cacheKey userID) (marshalCurrentlyPlaying track) Tcache now

/-- SpotifyService.GetCachedCurrentlyPlaying: GET the cache key and
unmarshal; a missing/expired key or a decode failure is an error (none). -/
def GetCachedCurrentlyPlaying (st : RedisState) (userID : String) (now : Int) :
    Option SpotifyCurrentlyPlaying :=
  match redisGet st (cacheKey userID) now with
  | none => none
  | some j => unmarshalCurrentlyPlaying j

/-! ## UserService presence operations (part_007) -/

/-- models.ProfileVisit: the durable audit row. -/
structure ProfileVisit where
  id : String
  user_id : String
  visitor_ip : String
  visitor_user_id : Option String
  user_agent : String
  referrer_url : String
  started_at : Int
  ended_at : Option Int
deriving Repr, DecidableEq

/-- Visitor presence key "visitor:visitID". -/
def visitorKey (visitID : String) : String := "visitor:" ++ visitID

/-- Per-owner active-visitor set key "visitors:userID". -/
def visitorsKey (userID : String) : String := "visitors:" ++ userID

/-- The application state the presence operations touch: Redis plus the
profile_visits table. -/
structure AppState where
  redis : RedisState
  visits : List ProfileVisit

/-- The initial application state. -/
def emptyApp : AppState := ⟨emptyRedis, []⟩

/-- UserService.RecordProfileVisit: insert the audit row, SET the
visitor key with a 5-minute expiration, and SADD the visit id to the
owner's active-visitors set.  The fresh uuid is passed in as visitID. -/
def RecordProfileVisit (st : AppState) (userID visitID : String)
    (visitorIP userAgent referrerURL : String) (visitorUserID : Option String)
    (now : Int) : AppState :=
  let visit : ProfileVisit :=
    ⟨visitID, userID, visitorIP, visitorUserID, userAgent, referrerURL, now, none⟩
  let r1 := redisSet st.redis (visitorKey visitID) (.str "1") Tpresence now
  let r2 := sAdd r1 (visitorsKey userID) visitID
  ⟨r2, st.visits ++ [visit]⟩

/-- UserService.GetActiveUserCount: SCARD of the owner's visitors set. -/
def GetActiveUserCount (st : AppState) (userID : String) : Nat :=
  sCard st.redis (visitorsKey userID)

/-- UserService.RenewVisitorActivity: SET the visitor key with a fresh
5-minute expiration. -/
def RenewVisitorActivity (st : AppState) (visitID : String) (now : Int) : AppState :=
  { st with redis := redisSet st.redis (visitorKey visitID) (.str "1") Tpresence now }

/-! ## Track history (ProfileService.SaveTrackToHistory, part_006) -/

/-- models.Track: a row of the tracks table. -/
structure Track where
  id : String
  user_id : String
  spotify_track_id : String
  name : String
  artist : String
  album : String
  album_art_url : String
  track_url : String
  duration_ms : Int
  is_currently_playing : Bool
  played_at : Int
  created_at : Int
deriving Repr, DecidableEq

/-- ProfileService.SaveTrackToHistory run to completion on the tracks
table of one database.  It selects an existing currently-playing row for
the same owner and spotify track id; if found it only updates that row's
played_at, otherwise it flips every currently-playing row of the owner
to not-playing and then inserts the given track. -/
def SaveTrackToHistory (db : List Track) (track : Track) (now : Int) : List Track :=
  match db.find? (fun t =>
      t.user_id == track.user_id && t.spotify_track_id == track.spotify_track_id
        && t.is_currently_playing) with
  | some existing =>
      db.map (fun t => if t.id == existing.id then { t with played_at := now } else t)
  | none =>
      (db.map (fun t =>
        if t.user_id == track.user_id && t.is_currently_playing then
          { t with is_currently_playing := false }
        else t)) ++ [track]

/-- The number of currently-playing history rows an owner has. -/
def countPlaying (db : List Track) (u : String) : Nat :=
  (db.filter (fun t => t.user_id == u && t.is_currently_playing)).length

/-- Folding a sequence of SaveTrackToHistory calls (track, call instant)
over a tracks table. -/
def saveSeq (db : List Track) (calls : List (Track × Int)) : List Track :=
  calls.foldl (fun acc c => SaveTrackToHistory acc c.1 c.2) db

theorem countPlaying_nil (u : String) : countPlaying [] u = 0 := rfl

theorem countPlaying_cons (t : Track) (rest : List Track) (u : String) :
    countPlaying (t :: rest) u =
      (if t.user_id == u && t.is_currently_playing then 1 else 0) + countPlaying rest u := by
  simp only [countPlaying, List.filter_cons]
  split
  · simp [Nat.add_comm]
  · simp

theorem countPlaying_append (a b : List Track) (u : String) :
    countPlaying (a ++ b) u = countPlaying a u + countPlaying b u := by
  simp [countPlaying, List.filter_append]

/-- The played_at-only update step of SaveTrackToHistory does not change
any owner's number of currently-playing rows. -/
theorem countPlaying_update_played (db : List Track) (eid : String) (now : Int)
    (u : String) :
    countPlaying (db.map (fun t =>
        if t.id == eid then { t with played_at := now } else t)) u
      = countPlaying db u := by
  induction db with
  | nil => rfl
  | cons t rest ih =>
    simp only [List.map_cons, countPlaying_cons, ih]
    by_cases h : t.id == eid <;> simp [h]

/-- The flip-all-to-not-playing step of SaveTrackToHistory zeroes the
targeted owner's playing count and leaves every other owner's count
unchanged. -/
theorem countPlaying_flip (db : List Track) (v u : String) :
    countPlaying (db.map (fun t =>
        if t.user_id == v && t.is_currently_playing then
          { t with is_currently_playing := false }
        else t)) u
      = if u = v then 0 else countPlaying db u := by
  induction db with
  | nil => simp [countPlaying]
  | cons t rest ih =>
    simp only [List.map_cons, countPlaying_cons, ih]
    by_cases huv : u = v <;>
      by_cases h1 : t.user_id = v <;>
        by_cases h2 : t.is_currently_playing = true <;>
          (simp_all [beq_iff_eq]; try exact Ne.symm huv)

/-- One completed SaveTrackToHistory call preserves the at-most-one
currently-playing invariant for every owner. -/
theorem saveTrack_preserves (db : List Track) (track : Track) (now : Int)
    (h : ∀ u, countPlaying db u ≤ 1) :
    ∀ u, countPlaying (SaveTrackToHistory db track now) u ≤ 1 := by
  intro u
  unfold SaveTrackToHistory
  cases hf : db.find? (fun t =>
      t.user_id == track.user_id && t.spotify_track_id == track.spotify_track_id
        && t.is_currently_playing) with
  | some existing =>
      rw [countPlaying_update_played]
      exact h u
  | none =>
      rw [countPlaying_append, countPlaying_flip]
      by_cases huv : u = track.user_id
      · subst huv
        simp only [if_pos rfl]
        simp [countPlaying_cons, countPlaying_nil]
        split <;> omega
      · have : (track.user_id == u) = false := by
          simp [beq_iff_eq]
          exact fun he => huv he.symm
        simp [huv, countPlaying_cons, countPlaying_nil, this]
        exact h u

theorem saveSeq_preserves (calls : List (Track × Int)) :
    ∀ db : List Track, (∀ u, countPlaying db u ≤ 1) →
      ∀ u, countPlaying (saveSeq db calls) u ≤ 1 := by
  induction calls with
  | nil => intro db h u; exact h u
  | cons c rest ih =>
      intro db h u
      exact ih (SaveTrackToHistory db c.1 c.2) (saveTrack_preserves db c.1 c.2 h) u

/-! ## Store lemmas and the JSON round trip -/

theorem kvGet_kvSet_self (l : List (String × Json × Int)) (k : String) (v : Json)
    (e now : Int) :
    kvGet (kvSet l k v e) k now = if now < e then some v else none := by
  induction l with
  | nil => simp [kvSet, kvGet]
  | cons p rest ih =>
      obtain ⟨k', v', e'⟩ := p
      by_cases h : k' == k <;> simp [kvSet, kvGet, h, ih]

theorem kvSet_idem (l : List (String × Json × Int)) (k : String) (v : Json) (e : Int) :
    kvSet (kvSet l k v e) k v e = kvSet l k v e := by
  induction l with
  | nil => simp [kvSet]
  | cons p rest ih =>
      obtain ⟨k', v', e'⟩ := p
      by_cases h : k' == k <;> simp [kvSet, h, ih]

/-- Marshalling a snapshot and unmarshalling it back restores every
field (the encoding/json round trip on SpotifyCurrentlyPlaying). -/
theorem unmarshal_marshal (s : SpotifyCurrentlyPlaying) :
    unmarshalCurrentlyPlaying (marshalCurrentlyPlaying s) = some s := rfl

/-! ## Claim theorems: presence, history, cache -/

/-- The state after a single page-load visit V1 to owner U at instant 0,
never renewed and never explicitly ended. -/
def c1State : AppState :=
  RecordProfileVisit emptyApp "U" "V1" "203.0.113.9" "agent" "ref" none 0

/-- C1: the code contradicts the claim.  One visit V1 is recorded for
owner U at instant 0 and never renewed.  At instant Tpresence + 1 = 301 s
the presence key visitor:V1 has expired, yet GetActiveUserCount still
returns 1: the count is the cardinality of the visitors:U set, whose
members carry no expiry and are only removed by an explicit
EndProfileVisit.  The claim (and the spec scenario) say the count drops
to 0 after T_presence with no endVisit call. -/
theorem c1_expired_visit_still_counted :
    GetActiveUserCount c1State "U" = 1 ∧
    redisGet c1State.redis (visitorKey "V1") (Tpresence + 1) = none := by
  exact ⟨rfl, rfl⟩

/-- C2: starting from an empty tracks table, after any sequence of
completed SaveTrackToHistory calls, every owner has at most one history
record with is_currently_playing = true. -/
theorem c2_at_most_one_playing (calls : List (Track × Int)) (u : String) :
    countPlaying (saveSeq [] calls) u ≤ 1 :=
  saveSeq_preserves calls [] (fun _ => by simp [countPlaying]) u

/-- C6: CacheCurrentlyPlaying followed by GetCachedCurrentlyPlaying for
the same owner returns exactly the snapshot written as long as less than
T_cache = 2 minutes elapsed (the JSON round trip preserves every field),
and returns absent once the 2 minutes have elapsed, regardless of any
prior cache contents. -/
theorem c6_cache_freshness (st : RedisState) (u : String)
    (tr : SpotifyCurrentlyPlaying) (now t : Int) :
    (t < now + Tcache →
      GetCachedCurrentlyPlaying (CacheCurrentlyPlaying st u tr now) u t = some tr) ∧
    (now + Tcache ≤ t →
      GetCachedCurrentlyPlaying (CacheCurrentlyPlaying st u tr now) u t = none) := by
  constructor <;> intro h <;>
    simp [GetCachedCurrentlyPlaying, CacheCurrentlyPlaying, redisSet, redisGet,
      kvGet_kvSet_self, h, unmarshal_marshal, not_lt.mpr]

/-- C6 witness: a concrete snapshot written at instant 0 is read back
exactly at instant 60 and is absent at instant 120. -/
theorem c6_cache_freshness_witness :
    GetCachedCurrentlyPlaying
        (CacheCurrentlyPlaying emptyRedis "U"
          ⟨true, "t1", "Song", "Artist", "Album", "art", "url", 200000, 10000⟩ 0)
        "U" 60
      = some ⟨true, "t1", "Song", "Artist", "Album", "art", "url", 200000, 10000⟩ ∧
    GetCachedCurrentlyPlaying
        (CacheCurrentlyPlaying emptyRedis "U"
          ⟨true, "t1", "Song", "Artist", "Album", "art", "url", 200000, 10000⟩ 0)
        "U" 120
      = none := by
  refine ⟨(c6_cache_freshness emptyRedis "U" _ 0 60).1 (by decide),
          (c6_cache_freshness emptyRedis "U" _ 0 120).2 (by decide)⟩

/-- The state after a page-load visit V2 to owner U at instant 0. -/
def c7State : AppState :=
  RecordProfileVisit emptyApp "U" "V2" "203.0.113.9" "agent" "ref" none 0

/-- C7 counterexample: at instant 400 the presence entry for V2 has
already expired (the visitor key reads as absent), yet
RenewVisitorActivity re-creates it — the subsequent read returns the
entry again.  This falsifies the claim's "no-op success when the entry
has already expired (it does not re-create the expired entry)". -/
theorem c7_counterexample :
    redisGet c7State.redis (visitorKey "V2") 400 = none ∧
    redisGet (RenewVisitorActivity c7State "V2" 400).redis (visitorKey "V2") 400
      = some (.str "1") := by
  exact ⟨rfl, rfl⟩

/-- C7 amended: RenewVisitorActivity unconditionally writes the presence
key with an expiry of T_presence = 5 minutes from now — resetting the
expiry when the entry still exists and re-creating the entry when it has
already expired — and repeated calls for the same visitID are
idempotent. -/
theorem c7_renew_amended (st : AppState) (visitID : String) (now t : Int) :
    (redisGet (RenewVisitorActivity st visitID now).redis (visitorKey visitID) t
      = if t < now + Tpresence then some (.str "1") else none) ∧
    RenewVisitorActivity (RenewVisitorActivity st visitID now) visitID now
      = RenewVisitorActivity st visitID now := by
  constructor
  · simp [RenewVisitorActivity, redisSet, redisGet, kvGet_kvSet_self]
  · simp [RenewVisitorActivity, redisSet, kvSet_idem]

/-! ## Users, tokens, and the three refresh paths

trackHandler.getCurrentTrack, trackHandler.refreshCurrentTrack
(internal/handlers/tracks.go) and ProfileService.GetProfileResponse
(part_006).  The external collaborators — the GetUserByID row, the token
refresh endpoint, the upstream playback poll, the cache read — are
supplied as oracle arguments (none = the Go call returned an error); the
run result records the response together with a trace of the performed
effects. -/

/-- models.User (the columns the refresh paths read). -/
structure User where
  id : String
  spotify_id : String
  email : String
  display_name : String
  profile_url : String
  spotify_access_token : String
  spotify_refresh_token : String
  token_expires_at : Int
  is_active : Bool
  is_sharing_enabled : Bool
deriving Repr, DecidableEq

/-- spotify.TokenResponse. -/
structure TokenResponse where
  access_token : String
  token_type : String
  scope : String
  expires_in : Int
  refresh_token : String
deriving Repr, DecidableEq

/-- UserService.IsTokenExpired: the token is treated as expired when it
expires within the next 5 minutes. -/
def IsTokenExpired (user : User) (now : Int) : Bool :=
  user.token_expires_at < now + 300

/-- Outcomes of the external Spotify collaborators: the token-refresh
endpoint keyed by refresh token, and SpotifyService.GetCurrentlyPlayingTrack
keyed by access token (none = upstream error). -/
structure SpotifyEnv where
  refreshAccessToken : String → Option TokenResponse
  getCurrentlyPlaying : String → Option SpotifyCurrentlyPlaying

/-- An HTTP response: status code and JSON error message, if any. -/
structure HttpResponse where
  status : Nat
  errorMsg : Option String
deriving Repr, DecidableEq

/-- One run of a track handler: the HTTP response, the snapshot body on
success, and the effect trace (which token polled upstream, what was
written to the now-playing cache, what was published, what was saved to
history). -/
structure TrackRun where
  response : HttpResponse
  body : Option SpotifyCurrentlyPlaying
  polledWith : Option String
  cachePut : Option SpotifyCurrentlyPlaying
  published : Option SpotifyCurrentlyPlaying
  historySaved : Option Track
deriving Repr, DecidableEq

/-- The upstream-poll tail of getCurrentTrack: poll with the (possibly
refreshed) access token; on success cache the snapshot only when it is
playing; never publish, never touch history. -/
def getCurrentTrackPoll (user : User) (env : SpotifyEnv) : TrackRun :=
  match env.getCurrentlyPlaying user.spotify_access_token with
  | none => ⟨⟨500, some "Failed to get track from Spotify"⟩, none,
             some user.spotify_access_token, none, none, none⟩
  | some track =>
      ⟨⟨200, none⟩, some track, some user.spotify_access_token,
       if track.is_playing then some track else none, none, none⟩

/-- The token-refresh preamble shared by both track handlers: when the
token is expired, a failed refresh aborts (none); a successful refresh
swaps in the new access token (the DB persist's failure is only
logged). -/
def refreshedUser (user : User) (now : Int) (env : SpotifyEnv) : Option User :=
  if IsTokenExpired user now then
    match env.refreshAccessToken user.spotify_refresh_token with
    | none => none
    | some tr => some { user with spotify_access_token := tr.access_token }
  else some user

/-- trackHandler.getCurrentTrack: sharing check, token refresh, cache
fast path (present and playing), otherwise poll upstream. -/
def getCurrentTrack (userLookup : Option User) (now : Int) (env : SpotifyEnv)
    (cached : Option SpotifyCurrentlyPlaying) : TrackRun :=
  match userLookup with
  | none => ⟨⟨500, some "Failed to get user"⟩, none, none, none, none, none⟩
  | some user =>
    if !user.is_sharing_enabled then
      ⟨⟨403, some "Music sharing is disabled"⟩, none, none, none, none, none⟩
    else
      match refreshedUser user now env with
      | none => ⟨⟨500, some "Failed to refresh Spotify access"⟩,
                 none, none, none, none, none⟩
      | some user' =>
        match cached with
        | some c =>
          if c.is_playing then ⟨⟨200, none⟩, some c, none, none, none, none⟩
          else getCurrentTrackPoll user' env
        | none => getCurrentTrackPoll user' env

/-- The upstream-poll tail of refreshCurrentTrack: on a playing snapshot
both cache it and publish it; never touch history. -/
def refreshCurrentTrackPoll (user : User) (env : SpotifyEnv) : TrackRun :=
  match env.getCurrentlyPlaying user.spotify_access_token with
  | none => ⟨⟨500, some "Failed to get track from Spotify"⟩, none,
             some user.spotify_access_token, none, none, none⟩
  | some track =>
      ⟨⟨200, none⟩, some track, some user.spotify_access_token,
       if track.is_playing then some track else none,
       if track.is_playing then some track else none, none⟩

/-- trackHandler.refreshCurrentTrack: sharing check, token refresh, then
always poll upstream (no cache read). -/
def refreshCurrentTrack (userLookup : Option User) (now : Int) (env : SpotifyEnv) :
    TrackRun :=
  match userLookup with
  | none => ⟨⟨500, some "Failed to get user"⟩, none, none, none, none, none⟩
  | some user =>
    if !user.is_sharing_enabled then
      ⟨⟨403, some "Music sharing is disabled"⟩, none, none, none, none, none⟩
    else
      match refreshedUser user now env with
      | none => ⟨⟨500, some "Failed to refresh Spotify access"⟩,
                 none, none, none, none, none⟩
      | some user' => refreshCurrentTrackPoll user' env

/-! ## ProfileService.GetProfileResponse -/

/-- models.Profile (the columns GetProfileResponse reads). -/
structure Profile where
  id : String
  user_id : String
  theme : String
  background_color : String
  text_color : String
  custom_message : String
  show_stats : Bool
  show_history : Bool
  animation_style : String
deriving Repr, DecidableEq

/-- models.UserPublic. -/
structure UserPublic where
  id : String
  display_name : String
  profile_url : String
deriving Repr, DecidableEq

/-- models.ProfileResponse. -/
structure ProfileResponse where
  user : UserPublic
  profile : Profile
  current_track : Option Track
  recent_tracks : List Track
  viewer_count : Nat
deriving Repr, DecidableEq

/-- Outcomes of the collaborators GetProfileResponse consults: the
profile row, the cache read (none = miss or cache error), the token
refresh endpoint, the upstream poll, the recent-tracks query and the
active-viewer count (none = query error, absorbed by the code). -/
structure ProfileEnv where
  profile : Option Profile
  cached : Option SpotifyCurrentlyPlaying
  refreshAccessToken : String → Option TokenResponse
  getCurrentlyPlaying : String → Option SpotifyCurrentlyPlaying
  recentTracks : Option (List Track)
  activeCount : Option Nat

/-- One run of GetProfileResponse: the returned response (none = error)
and the effect trace. -/
structure ProfileRun where
  response : Option ProfileResponse
  polledWith : Option String
  cachePut : Option SpotifyCurrentlyPlaying
  historySaved : Option Track
  published : Option SpotifyCurrentlyPlaying
deriving Repr, DecidableEq

/-- The models.Track value GetProfileResponse builds from a playing
snapshot: zero-value id and created_at, playing, played_at = now. -/
def trackOfSnapshot (userID : String) (t : SpotifyCurrentlyPlaying) (now : Int) :
    Track :=
  ⟨"", userID, t.track_id, t.track_name, t.artist_name, t.album_name,
   t.album_art_url, t.track_url, t.duration_ms, true, now, 0⟩

/-- ProfileService.GetProfileResponse.  On a cache miss (or cache error)
with sharing enabled it refreshes the token when expired — but a failed
refresh is only logged and the stale token is kept — then polls
upstream; a playing poll is cached, saved to history and published, all
failures there being absorbed.  A present cached snapshot short-circuits
the poll. -/
def GetProfileResponse (user : User) (env : ProfileEnv) (now : Int) : ProfileRun :=
  match env.profile with
  | none => ⟨none, none, none, none, none⟩
  | some profile =>
    let core :
        Option Track × Option String × Option SpotifyCurrentlyPlaying ×
          Option Track × Option SpotifyCurrentlyPlaying :=
      match env.cached with
      | none =>
        if user.is_sharing_enabled then
          let user' :=
            if IsTokenExpired user now then
              match env.refreshAccessToken user.spotify_refresh_token with
              | none => user
              | some tr =>
                  { user with
                    spotify_access_token := tr.access_token
                    token_expires_at := now + tr.expires_in }
            else user
          match env.getCurrentlyPlaying user'.spotify_access_token with
          | none => (none, some user'.spotify_access_token, none, none, none)
          | some t =>
            if t.is_playing then
              let ct := trackOfSnapshot user.id t now
              (some ct, some user'.spotify_access_token, some t, some ct, some t)
            else (none, some user'.spotify_access_token, none, none, none)
        else (none, none, none, none, none)
      | some c =>
        if c.is_playing then
          (some (trackOfSnapshot user.id c now), none, none, none, none)
        else (none, none, none, none, none)
    let recent := if profile.show_history then env.recentTracks.getD [] else []
    let viewerCount := if profile.show_stats then env.activeCount.getD 0 else 0
    ⟨some ⟨⟨user.id, user.display_name, user.profile_url⟩, profile,
           core.1, recent, viewerCount⟩,
     core.2.1, core.2.2.1, core.2.2.2.1, core.2.2.2.2⟩

/-! ## Sample data for concrete runs -/

/-- A playing snapshot. -/
def playSnap : SpotifyCurrentlyPlaying :=
  ⟨true, "t1", "Song", "Artist", "Album", "art", "url", 200000, 10000⟩

/-- An idle snapshot (nothing playing). -/
def idleSnap : SpotifyCurrentlyPlaying :=
  ⟨false, "", "", "", "", "", "", 0, 0⟩

/-- A profile row with stats and history shown. -/
def sampleProfile : Profile :=
  ⟨"P1", "U", "default", "#121212", "#FFFFFF", "", true, true, "fade"⟩

/-- An active sharing user whose token expired at instant 0. -/
def staleUser : User :=
  ⟨"U", "sp1", "u@example.com", "Name", "name", "staleTok", "refreshTok", 0,
   true, true⟩

/-- An active sharing user whose token is far from expiry. -/
def freshUser : User :=
  ⟨"U", "sp1", "u@example.com", "Name", "name", "tok", "refreshTok", 1000000,
   true, true⟩

/-- A profile environment for a cache-missing page load whose token
refresh fails and whose upstream poll reports idle. -/
def c3ProfileEnv : ProfileEnv :=
  ⟨some sampleProfile, none, fun _ => none, fun _ => some idleSnap, some [], some 0⟩

/-- A track-handler environment whose token refresh fails and whose
upstream poll reports idle. -/
def c3TrackEnv : SpotifyEnv := ⟨fun _ => none, fun _ => some idleSnap⟩

/-! ## C3: token-refresh failure on the refresh paths -/

/-- C3 counterexample: at instant 1000 staleUser's token is expired and
the refresh call fails, yet GetProfileResponse does not abort — it
completes with a response and polls the upstream provider with the stale
access token, contrary to the claim that every refresh path aborts with
an auth-failure error without polling. -/
theorem c3_counterexample :
    IsTokenExpired staleUser 1000 = true ∧
    c3ProfileEnv.refreshAccessToken staleUser.spotify_refresh_token = none ∧
    (GetProfileResponse staleUser c3ProfileEnv 1000).polledWith = some "staleTok" ∧
    (GetProfileResponse staleUser c3ProfileEnv 1000).response.isSome = true :=
  ⟨rfl, rfl, rfl, rfl⟩

/-- C3 amended: when the access token is expired (or within 5 minutes of
expiry) and the refresh call fails, getCurrentTrack and
refreshCurrentTrack abort with the auth-failure error and never poll
upstream; GetProfileResponse, however, only logs the failure and
proceeds to poll the upstream provider with the stale access token. -/
theorem c3_refresh_failure_amended (user : User) (now : Int) (env : SpotifyEnv)
    (cached : Option SpotifyCurrentlyPlaying) (penv : ProfileEnv) (p : Profile)
    (hshare : user.is_sharing_enabled = true)
    (hexp : IsTokenExpired user now = true)
    (href : env.refreshAccessToken user.spotify_refresh_token = none)
    (hpp : penv.profile = some p)
    (hpc : penv.cached = none)
    (hpref : penv.refreshAccessToken user.spotify_refresh_token = none) :
    (getCurrentTrack (some user) now env cached).response
        = ⟨500, some "Failed to refresh Spotify access"⟩ ∧
    (getCurrentTrack (some user) now env cached).polledWith = none ∧
    (refreshCurrentTrack (some user) now env).response
        = ⟨500, some "Failed to refresh Spotify access"⟩ ∧
    (refreshCurrentTrack (some user) now env).polledWith = none ∧
    (GetProfileResponse user penv now).polledWith = some user.spotify_access_token := by
  have hr : refreshedUser user now env = none := by
    simp [refreshedUser, hexp, href]
  refine ⟨?_, ?_, ?_, ?_, ?_⟩
  · simp [getCurrentTrack, hr, hshare]
  · simp [getCurrentTrack, hr, hshare]
  · simp [refreshCurrentTrack, hr, hshare]
  · simp [refreshCurrentTrack, hr, hshare]
  · cases hpoll : penv.getCurrentlyPlaying user.spotify_access_token with
    | none => simp [GetProfileResponse, hpp, hpc, hshare, hexp, hpref, hpoll]
    | some t =>
        by_cases hplay : t.is_playing <;>
          simp [GetProfileResponse, hpp, hpc, hshare, hexp, hpref, hpoll, hplay]

/-- C3 witness: the amended theorem at the concrete stale user at
instant 1000 with failing refresh on both paths. -/
theorem c3_refresh_failure_witness :
    (getCurrentTrack (some staleUser) 1000 c3TrackEnv none).response
        = ⟨500, some "Failed to refresh Spotify access"⟩ ∧
    (getCurrentTrack (some staleUser) 1000 c3TrackEnv none).polledWith = none ∧
    (refreshCurrentTrack (some staleUser) 1000 c3TrackEnv).response
        = ⟨500, some "Failed to refresh Spotify access"⟩ ∧
    (refreshCurrentTrack (some staleUser) 1000 c3TrackEnv).polledWith = none ∧
    (GetProfileResponse staleUser c3ProfileEnv 1000).polledWith
        = some staleUser.spotify_access_token :=
  c3_refresh_failure_amended staleUser 1000 c3TrackEnv none c3ProfileEnv
    sampleProfile rfl rfl rfl rfl rfl rfl

/-! ## C4: effects after a cache-missing playing poll -/

/-- An environment whose upstream poll always reports the playing
snapshot. -/
def playingEnv : SpotifyEnv := ⟨fun _ => none, fun _ => some playSnap⟩

/-- C4 counterexample: a getCurrentTrack run with a cache miss whose
upstream poll succeeds with a playing snapshot writes the cache but
neither appends to track history nor publishes a change event — the
claim requires all three effects on this entry point. -/
theorem c4_counterexample :
    (getCurrentTrack (some freshUser) 0 playingEnv none).cachePut = some playSnap ∧
    (getCurrentTrack (some freshUser) 0 playingEnv none).historySaved = none ∧
    (getCurrentTrack (some freshUser) 0 playingEnv none).published = none :=
  ⟨rfl, rfl, rfl⟩

/-- C4 amended: on a cache miss whose upstream poll succeeds with a
playing snapshot, only GetProfileResponse performs all three effects
(cache write, flip-then-insert history save, publish);
refreshCurrentTrack writes the cache and publishes but never touches
history; getCurrentTrack only writes the cache. -/
theorem c4_effects_amended (user : User) (now : Int) (env : SpotifyEnv)
    (penv : ProfileEnv) (p : Profile) (t : SpotifyCurrentlyPlaying)
    (hshare : user.is_sharing_enabled = true)
    (hfresh : IsTokenExpired user now = false)
    (hpoll : env.getCurrentlyPlaying user.spotify_access_token = some t)
    (hplay : t.is_playing = true)
    (hpp : penv.profile = some p) (hpc : penv.cached = none)
    (hppoll : penv.getCurrentlyPlaying user.spotify_access_token = some t) :
    ((GetProfileResponse user penv now).cachePut = some t ∧
     (GetProfileResponse user penv now).historySaved
        = some (trackOfSnapshot user.id t now) ∧
     (GetProfileResponse user penv now).published = some t) ∧
    ((refreshCurrentTrack (some user) now env).cachePut = some t ∧
     (refreshCurrentTrack (some user) now env).published = some t ∧
     (refreshCurrentTrack (some user) now env).historySaved = none) ∧
    ((getCurrentTrack (some user) now env none).cachePut = some t ∧
     (getCurrentTrack (some user) now env none).published = none ∧
     (getCurrentTrack (some user) now env none).historySaved = none) := by
  have hr : refreshedUser user now env = some user := by
    simp [refreshedUser, hfresh]
  refine ⟨⟨?_, ?_, ?_⟩, ⟨?_, ?_, ?_⟩, ⟨?_, ?_, ?_⟩⟩ <;>
    simp [GetProfileResponse, refreshCurrentTrack, getCurrentTrack,
      refreshCurrentTrackPoll, getCurrentTrackPoll, hr, hshare, hfresh, hpoll,
      hplay, hpp, hpc, hppoll]

/-- C4 witness: the amended theorem at the concrete fresh user with an
always-playing upstream. -/
theorem c4_effects_witness :
    ((GetProfileResponse freshUser
        ⟨some sampleProfile, none, fun _ => none, fun _ => some playSnap,
         some [], some 0⟩ 0).cachePut = some playSnap ∧
     (GetProfileResponse freshUser
        ⟨some sampleProfile, none, fun _ => none, fun _ => some playSnap,
         some [], some 0⟩ 0).historySaved
        = some (trackOfSnapshot freshUser.id playSnap 0) ∧
     (GetProfileResponse freshUser
        ⟨some sampleProfile, none, fun _ => none, fun _ => some playSnap,
         some [], some 0⟩ 0).published = some playSnap) ∧
    ((refreshCurrentTrack (some freshUser) 0 playingEnv).cachePut = some playSnap ∧
     (refreshCurrentTrack (some freshUser) 0 playingEnv).published = some playSnap ∧
     (refreshCurrentTrack (some freshUser) 0 playingEnv).historySaved = none) ∧
    ((getCurrentTrack (some freshUser) 0 playingEnv none).cachePut = some playSnap ∧
     (getCurrentTrack (some freshUser) 0 playingEnv none).published = none ∧
     (getCurrentTrack (some freshUser) 0 playingEnv none).historySaved = none) :=
  c4_effects_amended freshUser 0 playingEnv
    ⟨some sampleProfile, none, fun _ => none, fun _ => some playSnap, some [], some 0⟩
    sampleProfile playSnap rfl rfl rfl rfl rfl rfl rfl

/-! ## C5: idle polls leave the shared state untouched -/

theorem getCurrentTrackPoll_idle (user : User) (env : SpotifyEnv)
    (henv : ∀ tok t, env.getCurrentlyPlaying tok = some t → t.is_playing = false) :
    (getCurrentTrackPoll user env).cachePut = none ∧
    (getCurrentTrackPoll user env).published = none ∧
    (getCurrentTrackPoll user env).historySaved = none := by
  cases hpoll : env.getCurrentlyPlaying user.spotify_access_token with
  | none => simp [getCurrentTrackPoll, hpoll]
  | some t =>
      have ht := henv _ _ hpoll
      simp [getCurrentTrackPoll, hpoll, ht]

theorem refreshCurrentTrackPoll_idle (user : User) (env : SpotifyEnv)
    (henv : ∀ tok t, env.getCurrentlyPlaying tok = some t → t.is_playing = false) :
    (refreshCurrentTrackPoll user env).cachePut = none ∧
    (refreshCurrentTrackPoll user env).published = none ∧
    (refreshCurrentTrackPoll user env).historySaved = none := by
  cases hpoll : env.getCurrentlyPlaying user.spotify_access_token with
  | none => simp [refreshCurrentTrackPoll, hpoll]
  | some t =>
      have ht := henv _ _ hpoll
      simp [refreshCurrentTrackPoll, hpoll, ht]

theorem getCurrentTrack_idle (userLookup : Option User) (now : Int)
    (env : SpotifyEnv) (cached : Option SpotifyCurrentlyPlaying)
    (henv : ∀ tok t, env.getCurrentlyPlaying tok = some t → t.is_playing = false) :
    (getCurrentTrack userLookup now env cached).cachePut = none ∧
    (getCurrentTrack userLookup now env cached).published = none ∧
    (getCurrentTrack userLookup now env cached).historySaved = none := by
  cases userLookup with
  | none => simp [getCurrentTrack]
  | some user =>
      by_cases hs : user.is_sharing_enabled
      · cases hr : refreshedUser user now env with
        | none => simp [getCurrentTrack, hs, hr]
        | some user' =>
            cases cached with
            | none =>
                simpa [getCurrentTrack, hs, hr] using
                  getCurrentTrackPoll_idle user' env henv
            | some c =>
                by_cases hc : c.is_playing
                · simp [getCurrentTrack, hs, hr, hc]
                · simpa [getCurrentTrack, hs, hr, hc] using
                    getCurrentTrackPoll_idle user' env henv
      · simp [getCurrentTrack, hs]

theorem refreshCurrentTrack_idle (userLookup : Option User) (now : Int)
    (env : SpotifyEnv)
    (henv : ∀ tok t, env.getCurrentlyPlaying tok = some t → t.is_playing = false) :
    (refreshCurrentTrack userLookup now env).cachePut = none ∧
    (refreshCurrentTrack userLookup now env).published = none ∧
    (refreshCurrentTrack userLookup now env).historySaved = none := by
  cases userLookup with
  | none => simp [refreshCurrentTrack]
  | some user =>
      by_cases hs : user.is_sharing_enabled
      · cases hr : refreshedUser user now env with
        | none => simp [refreshCurrentTrack, hs, hr]
        | some user' =>
            simpa [refreshCurrentTrack, hs, hr] using
              refreshCurrentTrackPoll_idle user' env henv
      · simp [refreshCurrentTrack, hs]

theorem getProfileResponse_idle (user : User) (penv : ProfileEnv) (now : Int)
    (hpenv : ∀ tok t, penv.getCurrentlyPlaying tok = some t → t.is_playing = false) :
    (GetProfileResponse user penv now).cachePut = none ∧
    (GetProfileResponse user penv now).published = none ∧
    (GetProfileResponse user penv now).historySaved = none := by
  cases hpp : penv.profile with
  | none => simp [GetProfileResponse, hpp]
  | some p =>
      cases hpc : penv.cached with
      | some c =>
          by_cases hc : c.is_playing <;> simp [GetProfileResponse, hpp, hpc, hc]
      | none =>
          by_cases hs : user.is_sharing_enabled
          · by_cases hexp : IsTokenExpired user now
            · cases href : penv.refreshAccessToken user.spotify_refresh_token with
              | none =>
                  cases hpoll : penv.getCurrentlyPlaying user.spotify_access_token with
                  | none =>
                      simp [GetProfileResponse, hpp, hpc, hs, hexp, href, hpoll]
                  | some t =>
                      have ht := hpenv _ _ hpoll
                      simp [GetProfileResponse, hpp, hpc, hs, hexp, href, hpoll, ht]
              | some tr =>
                  cases hpoll : penv.getCurrentlyPlaying tr.access_token with
                  | none =>
                      simp [GetProfileResponse, hpp, hpc, hs, hexp, href, hpoll]
                  | some t =>
                      have ht := hpenv _ _ hpoll
                      simp [GetProfileResponse, hpp, hpc, hs, hexp, href, hpoll, ht]
            · cases hpoll : penv.getCurrentlyPlaying user.spotify_access_token with
              | none => simp [GetProfileResponse, hpp, hpc, hs, hexp, hpoll]
              | some t =>
                  have ht := hpenv _ _ hpoll
                  simp [GetProfileResponse, hpp, hpc, hs, hexp, hpoll, ht]
          · simp [GetProfileResponse, hpp, hpc, hs]

/-- C5: on every refresh path, whenever every successful upstream poll
reports is_playing = false, none of the three shared states change: no
cache write, no publish, and no track-history record is appended or
updated. -/
theorem c5_idle_frame (userLookup : Option User) (user : User) (now : Int)
    (env : SpotifyEnv) (cached : Option SpotifyCurrentlyPlaying) (penv : ProfileEnv)
    (henv : ∀ tok t, env.getCurrentlyPlaying tok = some t → t.is_playing = false)
    (hpenv : ∀ tok t, penv.getCurrentlyPlaying tok = some t → t.is_playing = false) :
    ((getCurrentTrack userLookup now env cached).cachePut = none ∧
     (getCurrentTrack userLookup now env cached).published = none ∧
     (getCurrentTrack userLookup now env cached).historySaved = none) ∧
    ((refreshCurrentTrack userLookup now env).cachePut = none ∧
     (refreshCurrentTrack userLookup now env).published = none ∧
     (refreshCurrentTrack userLookup now env).historySaved = none) ∧
    ((GetProfileResponse user penv now).cachePut = none ∧
     (GetProfileResponse user penv now).published = none ∧
     (GetProfileResponse user penv now).historySaved = none) :=
  ⟨getCurrentTrack_idle userLookup now env cached henv,
   refreshCurrentTrack_idle userLookup now env henv,
   getProfileResponse_idle user penv now hpenv⟩

/-- C5 witness: the theorem at a concrete user and environments whose
polls always report idle. -/
theorem c5_idle_frame_witness :
    ((getCurrentTrack (some freshUser) 0 c3TrackEnv none).cachePut = none ∧
     (getCurrentTrack (some freshUser) 0 c3TrackEnv none).published = none ∧
     (getCurrentTrack (some freshUser) 0 c3TrackEnv none).historySaved = none) ∧
    ((refreshCurrentTrack (some freshUser) 0 c3TrackEnv).cachePut = none ∧
     (refreshCurrentTrack (some freshUser) 0 c3TrackEnv).published = none ∧
     (refreshCurrentTrack (some freshUser) 0 c3TrackEnv).historySaved = none) ∧
    ((GetProfileResponse freshUser c3ProfileEnv 0).cachePut = none ∧
     (GetProfileResponse freshUser c3ProfileEnv 0).published = none ∧
     (GetProfileResponse freshUser c3ProfileEnv 0).historySaved = none) :=
  c5_idle_frame (some freshUser) freshUser 0 c3TrackEnv none c3ProfileEnv
    (fun tok t h => by injection h with h2; rw [← h2]; rfl)
    (fun tok t h => by injection h with h2; rw [← h2]; rfl)

/-! ## The live-update session loops (trackUpdatesWebSocket) -/

/-- An event observed by a streaming live-update session: a 60-second
heartbeat tick whose RenewVisitorActivity call succeeds or fails, a
pub/sub message whose WebSocket write succeeds or fails, or cancellation
of the request context. -/
inductive SessionEvent where
  | hbTick (renewOk : Bool)
  | relayMsg (writeOk : Bool)
  | ctxDone
deriving Repr, DecidableEq

/-- The streaming session's observable state: whether the connection is
still open, whether the heartbeat goroutine is still running, and the
trace of renewal attempts made (their outcomes, in order). -/
structure SessionState where
  connOpen : Bool
  hbAlive : Bool
  renewAttempts : List Bool
deriving Repr, DecidableEq

/-- One step of the streaming part of trackUpdatesWebSocket.  On a tick
the heartbeat goroutine, if still running, attempts a renewal and exits
(returns) when the renewal fails.  On a relayed message a failed
WebSocket write makes the relay loop return, which closes the connection
and cancels the context, which in turn stops the goroutine.  Context
cancellation ends both loops. -/
def sessionStep (st : SessionState) (e : SessionEvent) : SessionState :=
  if !st.connOpen then st
  else
    match e with
    | .hbTick ok =>
        if st.hbAlive then
          { st with
            renewAttempts := st.renewAttempts ++ [ok]
            hbAlive := ok }
        else st
    | .relayMsg writeOk =>
        if writeOk then st
        else { st with connOpen := false, hbAlive := false }
    | .ctxDone => { st with connOpen := false, hbAlive := false }

/-- A whole session run from the freshly-streaming state. -/
def sessionRun (events : List SessionEvent) : SessionState :=
  events.foldl sessionStep ⟨true, true, []⟩

/-- C8 counterexample: the first heartbeat tick's renewal fails; on the
next tick the session is still open, yet no further renewal is
attempted — the goroutine exited on the failure, contradicting the
claim that the loop keeps attempting renewals on subsequent ticks until
the session ends. -/
theorem c8_counterexample :
    (sessionRun [.hbTick false, .hbTick true]).connOpen = true ∧
    (sessionRun [.hbTick false, .hbTick true]).renewAttempts = [false] :=
  ⟨rfl, rfl⟩

/-- C8 amended: a failed renewal is non-fatal to the connection — a
heartbeat tick never changes whether the connection is open — but it
terminates the heartbeat goroutine: after a failed renewal the goroutine
is no longer alive, and a dead goroutine makes no further renewal
attempts on any later tick. -/
theorem c8_heartbeat_amended (st : SessionState) (ok : Bool) :
    ((sessionStep st (.hbTick ok)).connOpen = st.connOpen) ∧
    (st.connOpen = true → st.hbAlive = true →
      (sessionStep st (.hbTick false)).hbAlive = false) ∧
    (st.hbAlive = false →
      (sessionStep st (.hbTick ok)).renewAttempts = st.renewAttempts) := by
  obtain ⟨c, a, tr⟩ := st
  refine ⟨?_, ?_, ?_⟩ <;> cases c <;> cases a <;> simp [sessionStep]

/-- C8 witness: the amended theorem at the freshly-streaming state. -/
theorem c8_heartbeat_witness :
    ((sessionStep ⟨true, true, []⟩ (.hbTick false)).connOpen = true) ∧
    ((sessionStep ⟨true, true, []⟩ (.hbTick false)).hbAlive = false) :=
  ⟨(c8_heartbeat_amended ⟨true, true, []⟩ false).1,
   (c8_heartbeat_amended ⟨true, true, []⟩ false).2.1 rfl rfl⟩

/-! ## C9: WebSocket validation before the upgrade -/

/-- The observable outcome of a live-update connection attempt: the
pre-upgrade JSON rejection if any, whether the WebSocket upgrade and the
pub/sub subscription happened, and the initial snapshot sent, if any. -/
structure WsRun where
  rejection : Option HttpResponse
  upgraded : Bool
  subscribed : Bool
  initialSent : Option SpotifyCurrentlyPlaying
deriving Repr, DecidableEq

/-- trackHandler.trackUpdatesWebSocket up to the streaming loops: look
the owner up by profile URL (404 when missing), require active and
sharing (403 otherwise), require the visit_id cookie to be present (401
otherwise), then upgrade, subscribe to the owner's channel and send the
cached snapshot when present and playing.  The cookie's value is only
read, never checked against anything. -/
def trackUpdatesWebSocket (userLookup : Option User) (visitCookie : Option String)
    (upgradeOk : Bool) (cached : Option SpotifyCurrentlyPlaying) : WsRun :=
  match userLookup with
  | none => ⟨some ⟨404, some "Profile not found"⟩, false, false, none⟩
  | some user =>
    if !user.is_active || !user.is_sharing_enabled then
      ⟨some ⟨403, some "Profile not available"⟩, false, false, none⟩
    else
      match visitCookie with
      | none => ⟨some ⟨401, some "Unauthorized"⟩, false, false, none⟩
      | some _ =>
        if !upgradeOk then ⟨none, false, false, none⟩
        else
          let initial :=
            match cached with
            | some c => if c.is_playing then some c else none
            | none => none
          ⟨none, true, true, initial⟩

/-- C9 counterexample: a viewer presenting a forged visit_id cookie
value "bogus" — one never issued by any page load (the issued-visit list
is empty) — is not rejected: the connection upgrades and the
subscription is created.  This falsifies the claim's requirement that a
viewer without a valid visit identifier obtained from a prior page load
be rejected before the upgrade. -/
theorem c9_counterexample :
    "bogus" ∉ ([] : List String) ∧
    (trackUpdatesWebSocket (some freshUser) (some "bogus") true none).rejection
      = none ∧
    (trackUpdatesWebSocket (some freshUser) (some "bogus") true none).subscribed
      = true :=
  ⟨List.not_mem_nil "bogus", rfl, rfl⟩

/-- C9 amended: a missing owner, an inactive or non-sharing owner, and
an absent visit_id cookie are each rejected (404, 403, 401) before any
upgrade, with no subscription created and no snapshot delivered; but the
visit identifier's value itself is never validated — any request that
presents some cookie value for a valid owner proceeds to upgrade and
subscribe. -/
theorem c9_validation_amended (userLookup : Option User)
    (visitCookie : Option String) (upgradeOk : Bool)
    (cached : Option SpotifyCurrentlyPlaying) :
    (userLookup = none →
      trackUpdatesWebSocket userLookup visitCookie upgradeOk cached
        = ⟨some ⟨404, some "Profile not found"⟩, false, false, none⟩) ∧
    (∀ user, userLookup = some user →
      (user.is_active = false ∨ user.is_sharing_enabled = false) →
      trackUpdatesWebSocket userLookup visitCookie upgradeOk cached
        = ⟨some ⟨403, some "Profile not available"⟩, false, false, none⟩) ∧
    (∀ user, userLookup = some user → user.is_active = true →
      user.is_sharing_enabled = true → visitCookie = none →
      trackUpdatesWebSocket userLookup visitCookie upgradeOk cached
        = ⟨some ⟨401, some "Unauthorized"⟩, false, false, none⟩) ∧
    (∀ user v, userLookup = some user → user.is_active = true →
      user.is_sharing_enabled = true → visitCookie = some v → upgradeOk = true →
      (trackUpdatesWebSocket userLookup visitCookie upgradeOk cached).rejection
          = none ∧
      (trackUpdatesWebSocket userLookup visitCookie upgradeOk cached).subscribed
          = true) := by
  refine ⟨?_, ?_, ?_, ?_⟩
  · rintro rfl; rfl
  · rintro user rfl h
    rcases h with h | h <;> simp [trackUpdatesWebSocket, h]
  · rintro user rfl ha hs rfl
    simp [trackUpdatesWebSocket, ha, hs]
  · rintro user v rfl ha hs rfl rfl
    constructor <;> simp [trackUpdatesWebSocket, ha, hs]

/-- C9 witness: the amended theorem at concrete requests — missing
owner, sharing-disabled owner, missing cookie, and a present cookie that
then proceeds. -/
theorem c9_validation_witness :
    trackUpdatesWebSocket none (some "v") true none
      = ⟨some ⟨404, some "Profile not found"⟩, false, false, none⟩ ∧
    trackUpdatesWebSocket
        (some { freshUser with is_sharing_enabled := false }) (some "v") true none
      = ⟨some ⟨403, some "Profile not available"⟩, false, false, none⟩ ∧
    trackUpdatesWebSocket (some freshUser) none true none
      = ⟨some ⟨401, some "Unauthorized"⟩, false, false, none⟩ ∧
    (trackUpdatesWebSocket (some freshUser) (some "v") true none).subscribed
      = true :=
  ⟨(c9_validation_amended none (some "v") true none).1 rfl,
   (c9_validation_amended (some { freshUser with is_sharing_enabled := false })
      (some "v") true none).2.1 _ rfl (Or.inr rfl),
   (c9_validation_amended (some freshUser) none true none).2.2.1 _ rfl rfl rfl rfl,
   ((c9_validation_amended (some freshUser) (some "v") true none).2.2.2 _ "v"
      rfl rfl rfl rfl rfl).2⟩

/-! ## C10: GetTrackHistory and the request context -/

/-- A value stored in a Go context under a key: either a *sqlx.DB
handle or a value of some other type (the type assertion in
GetTrackHistory distinguishes the two). -/
inductive CtxVal where
  | db (handle : Nat)
  | other
deriving Repr, DecidableEq

/-- ctx.Value("db").(*sqlx.DB): look up the "db" key and type-assert. -/
def ctxDb (ctxVals : List (String × CtxVal)) : Option Nat :=
  match ctxVals.find? (fun p => p.1 == "db") with
  | some (_, .db h) => some h
  | _ => none

/-- The recent-track query: rows of the owner, newest played_at first,
at most limit of them. -/
def trackHistoryQuery (tracksTable : List Track) (userID : String) (limit : Int) :
    List Track :=
  (((tracksTable.filter (fun t => t.user_id == userID)).insertionSort
      (fun a b => b.played_at ≤ a.played_at)).take limit.toNat)

/-- SpotifyService.GetTrackHistory: errors unless the context carries a
*sqlx.DB under "db"; otherwise runs the recent-track query. -/
def GetTrackHistory (ctxVals : List (String × CtxVal)) (tracksTable : List Track)
    (userID : String) (limit : Int) : Except String (List Track) :=
  match ctxDb ctxVals with
  | none => .error "database connection not found in context"
  | some _ => .ok (trackHistoryQuery tracksTable userID limit)

/-- trackHandler.getTrackHistory: parse the limit query parameter
(default 10, kept on a parse failure), call GetTrackHistory with the
request context, and map an error to a 500 response with no tracks. -/
def getTrackHistory (requestCtx : List (String × CtxVal)) (tracksTable : List Track)
    (userID : String) (limitParam : String) : HttpResponse × Option (List Track) :=
  let limit : Int :=
    if limitParam == "" then 10
    else
      match limitParam.toInt? with
      | some n => n
      | none => 10
  match GetTrackHistory requestCtx tracksTable userID limit with
  | .error _ => (⟨500, some "Failed to get track history"⟩, none)
  | .ok tracks => (⟨200, none⟩, some tracks)

/-- A gin request context: the net/http request context plus gin's own
key store.  gin's c.Set writes the latter; c.Request.Context() reads the
former. -/
structure GinContext where
  requestCtx : List (String × CtxVal)
  keys : List (String × String)
deriving Repr, DecidableEq

/-- handlers.authMiddleware on a request passing authentication: stores
the user id under gin's "user_id" key and leaves the request context
untouched. -/
def authMiddlewareSet (c : GinContext) (userID : String) : GinContext :=
  { c with keys := c.keys ++ [("user_id", userID)] }

/-- C10: the auth middleware never touches the request context, so for
every request whose inbound context carries no "db" value — which is
every request, since no code in the repository ever stores one —
GetTrackHistory fails with "database connection not found in context"
and the history handler responds 500 with no tracks. -/
theorem c10_history_always_fails (c : GinContext) (uid : String)
    (tracksTable : List Track) (userID limitParam : String) (limit : Int)
    (h : ctxDb c.requestCtx = none) :
    (authMiddlewareSet c uid).requestCtx = c.requestCtx ∧
    GetTrackHistory c.requestCtx tracksTable userID limit
      = .error "database connection not found in context" ∧
    getTrackHistory c.requestCtx tracksTable userID limitParam
      = (⟨500, some "Failed to get track history"⟩, none) := by
  refine ⟨rfl, ?_, ?_⟩ <;> simp [GetTrackHistory, getTrackHistory, h]

/-- C10 witness: a concrete authenticated request with an empty inbound
context and the default limit. -/
theorem c10_history_witness :
    GetTrackHistory ([] : List (String × CtxVal)) [] "U" 10
      = .error "database connection not found in context" ∧
    getTrackHistory ([] : List (String × CtxVal)) [] "U" ""
      = (⟨500, some "Failed to get track history"⟩, none) :=
  ⟨(c10_history_always_fails ⟨[], []⟩ "U" [] "U" "" 10 rfl).2.1,
   (c10_history_always_fails ⟨[], []⟩ "U" [] "U" "" 10 rfl).2.2⟩

end WAILT
